import Mathlib

/-!
Shallow embedding of the soroban-ecs contract (`src/lib.rs`).

The contract persists three values in instance storage, keyed by `DataKey`:
a genesis flag, the `World`, and the `Register`. We model the storage as a
record with one `Option` field per key, and each contract entry point as a
function from storage (plus arguments) to storage. A Rust panic (`expect`)
is modelled as `Except.error` carrying the panic message.

Machine integers (`u128` for `Bitmap`/`Index`/`Query`) are modelled as `Nat`
with explicit `% 2 ^ 128` where the source performs arithmetic. Shift-left
follows release-build semantics (the build used for deployed wasm): the
shift amount is masked to the bit width. Soroban `Map`s are modelled as
association lists with upsert/remove; `Address` is an opaque comparable
token, modelled as `Nat`.
-/

abbrev Address := Nat
abbrev Bitmap := Nat
abbrev Index := Nat
abbrev Query := Bitmap

def U128 : Nat := 2 ^ 128

/-- `u128` shift-left as compiled in release builds: the shift amount is
masked to the bit width (checked builds trap instead; either way there is
no capacity-exhaustion error path in the source). -/
def u128Shl (a b : Nat) : Nat := (a <<< (b % 128)) % U128

/-- Soroban `Map::set`: upsert keyed entry. -/
def mapSet {α : Type} : List (Nat × α) → Nat → α → List (Nat × α)
  | [], k, v => [(k, v)]
  | (k', v') :: rest, k, v =>
      if k' = k then (k, v) :: rest else (k', v') :: mapSet rest k v

/-- Soroban `Map::remove`: delete keyed entry if present. -/
def mapRemove {α : Type} : List (Nat × α) → Nat → List (Nat × α)
  | [], _ => []
  | (k', v') :: rest, k => if k' = k then rest else (k', v') :: mapRemove rest k

structure World where
  name : String
  counter : Index
  entities : List (Index × (Bitmap × List Address))
  systems : List (Query × Address)
deriving DecidableEq

structure Register where
  counter : Bitmap
  addresses : List Address
  map : List (Bitmap × Address)
deriving DecidableEq

/-- The three `DataKey` slots of instance storage. -/
structure Storage where
  genesis : Option Bool
  world : Option World
  register : Option Register
deriving DecidableEq

/-- Storage of a freshly deployed contract: every key absent. -/
def Storage.init : Storage := { genesis := none, world := none, register := none }

/-- Soroban `Vec::binary_search` (standard binary search over the index
range; `some i` when the element at `i` equals the target). Fuel bounds the
iteration count, which never exceeds the list length. -/
def bsearchGo (xs : List Address) (target : Address) : Nat → Nat → Nat → Option Nat
  | 0, _, _ => none
  | fuel + 1, lo, hi =>
      if lo < hi then
        let mid := (lo + hi) / 2
        let x := xs.getD mid 0
        if x < target then bsearchGo xs target fuel (mid + 1) hi
        else if target < x then bsearchGo xs target fuel lo mid
        else some mid
      else none

def bsearch (xs : List Address) (target : Address) : Option Nat :=
  bsearchGo xs target (xs.length + 1) 0 xs.length

/-- Body of `Registered::register` for `Register`, acting on the in-memory
`Register` value it loaded: if the address is new, pre-increment the
counter, append the address, record the audit-map entry and return
`1 << counter`; otherwise return `none`. -/
def Register.registerLocal (reg : Register) (address : Address) :
    Option Bitmap × Register :=
  if ! reg.addresses.contains address then
    let counter := (reg.counter + 1) % U128
    (some (u128Shl 1 counter),
     { counter := counter,
       addresses := reg.addresses ++ [address],
       map := mapSet reg.map counter address })
  else (none, reg)

/-- `Registered::register` for `Register`: loads the `Register` from
storage, defaulting to an empty one when the key is absent, runs the body —
and, exactly as the source does, never writes the updated value back to
storage, so the returned storage is the input storage. -/
def Register.register (s : Storage) (address : Address) : Option Bitmap × Storage :=
  let reg := s.register.getD { counter := 0, addresses := [], map := [] }
  ((Register.registerLocal reg address).1, s)

/-- Body of `Registered::unregister` acting on the loaded `Register` value:
binary-search the address list and remove the hit if any. -/
def Register.unregisterLocal (reg : Register) (address : Address) : Register :=
  match bsearch reg.addresses address with
  | some index => { reg with addresses := reg.addresses.eraseIdx index }
  | none => reg

/-- `Registered::unregister` for `Register`: loads the `Register` with a
panicking `expect`, runs the body on the loaded value — and, exactly as the
source does, never writes the result back, so on success the storage is
returned unchanged. -/
def Register.unregister (s : Storage) (address : Address) : Except String Storage :=
  match s.register with
  | none => .error "best to have a register before we unregister!"
  | some reg =>
      let _ := Register.unregisterLocal reg address
      .ok s

/-- `System::add_system` for `World`: upsert into the systems map. -/
def World.add_system (w : World) (query : Query) (system : Address) : World :=
  { w with systems := mapSet w.systems query system }

/-- `System::remove_system` for `World`: remove from the systems map. -/
def World.remove_system (w : World) (query : Query) : World :=
  { w with systems := mapRemove w.systems query }

/-- The `for component in components` loop of `World::spawn`, threading the
storage through the `R::register` calls. `bitmap` accumulates `Some(a + b)`
(`u128` addition, wrapping in release builds) and `filtered` the components
that yielded a bit. -/
def spawnLoop (reg : Storage → Address → Option Bitmap × Storage) :
    List Address → Option Bitmap → List Address → Storage →
    Option Bitmap × List Address × Storage
  | [], bitmap, filtered, s => (bitmap, filtered, s)
  | component :: rest, bitmap, filtered, s =>
      let r := reg s component
      match r.1 with
      | some a =>
          let bitmap := match bitmap with
            | none => some a
            | some b => some ((a + b) % U128)
          spawnLoop reg rest bitmap (filtered ++ [component]) r.2
      | none => spawnLoop reg rest bitmap filtered r.2

/-- `World::spawn`, generic over the `Registered` implementation as in the
source: when some component yielded a bit, bump the entity counter and store
`(bitmask, filtered_components)` under the new id, returning `(true, world)`;
otherwise return `(false, world)` with the world untouched. -/
def World.spawn (reg : Storage → Address → Option Bitmap × Storage)
    (w : World) (s : Storage) (components : List Address) :
    (Bool × World) × Storage :=
  match spawnLoop reg components none [] s with
  | (some bitmap, filtered, s') =>
      let counter := (w.counter + 1) % U128
      ((true, { w with counter := counter,
                       entities := mapSet w.entities counter (bitmap, filtered) }), s')
  | (none, _, s') => ((false, w), s')

/-- `World::despawn`: delegate to `R::unregister`, then return `self`. -/
def World.despawn (unreg : Storage → Address → Except String Storage)
    (w : World) (s : Storage) (component : Address) :
    Except String (World × Storage) :=
  match unreg s component with
  | .ok s' => .ok (w, s')
  | .error e => .error e

/-- `Contract::check_genesis`: the genesis flag, defaulting to `false`. -/
def Contract.check_genesis (s : Storage) : Bool := s.genesis.getD false

/-- `Contract::genesis`: one-time initialization — on first call store the
flag and a fresh `World` with the given name; otherwise do nothing. -/
def Contract.genesis (s : Storage) (name : String) : Storage :=
  if ! Contract.check_genesis s then
    { s with genesis := some true,
             world := some { name := name, counter := 0,
                             entities := [], systems := [] } }
  else s

/-- `Contract::get_world`: read the stored `World`, panicking when absent. -/
def Contract.get_world (s : Storage) : Except String World :=
  match s.world with
  | some w => .ok w
  | none => .error "Seems we genesis has yet to happen :)"

/-- `Contract::spawn`: guarded by the genesis flag; loads the `World` with a
panicking `expect`, runs `World::spawn::<Register>`, and persists the updated
`World` only when an entity was created. -/
def Contract.spawn (s : Storage) (components : List Address) : Except String Storage :=
  if Contract.check_genesis s then
    match s.world with
    | none => .error "what happened to my world!"
    | some w =>
        match World.spawn Register.register w s components with
        | ((true, world), s') => .ok { s' with world := some world }
        | ((false, _), s') => .ok s'
  else .ok s

/-- `Contract::despawn`: guarded by the genesis flag; loads the `World` with
a panicking `expect`, runs `World::despawn::<Register>`, and discards the
returned `World` (nothing is written back). -/
def Contract.despawn (s : Storage) (component : Address) : Except String Storage :=
  if Contract.check_genesis s then
    match s.world with
    | none => .error "what happened to my world!"
    | some w =>
        match World.despawn Register.unregister w s component with
        | .ok (_, s') => .ok s'
        | .error e => .error e
  else .ok s

/-- `Contract::add_system`: guarded by the genesis flag; loads the `World`
with a panicking `expect`, computes `World::add_system` and discards the
result (nothing is written back). -/
def Contract.add_system (s : Storage) (query : Query) (system : Address) :
    Except String Storage :=
  if Contract.check_genesis s then
    match s.world with
    | none => .error "what happened to my world!"
    | some w =>
        let _ := World.add_system w query system
        .ok s
  else .ok s

/-- `Contract::remove_system`: guarded by the genesis flag; loads the
`World` with a panicking `expect`, computes `World::remove_system` and
discards the result (nothing is written back). -/
def Contract.remove_system (s : Storage) (query : Query) : Except String Storage :=
  if Contract.check_genesis s then
    match s.world with
    | none => .error "what happened to my world!"
    | some w =>
        let _ := World.remove_system w query
        .ok s
  else .ok s

/-! ### Shared lemmas -/

/-- `Register::register` never writes to storage. -/
theorem register_storage_eq (s : Storage) (a : Address) :
    (Register.register s a).2 = s := rfl

/-- When the Register key is absent, `register` sees the default empty
registry and issues bit `1 <<< 1 = 2` for any address. -/
theorem register_default (s : Storage) (h : s.register = none) (a : Address) :
    Register.register s a = (some 2, s) := by
  unfold Register.register
  rw [h]
  rfl

/-- The spawn loop leaves the storage untouched when driven by the real
`Register::register`. -/
theorem spawnLoop_storage_eq (comps : List Address) :
    ∀ b f s, (spawnLoop Register.register comps b f s).2.2 = s := by
  induction comps with
  | nil => intro b f s; rfl
  | cons c rest ih =>
      intro b f s
      simp only [spawnLoop]
      cases h : (Register.register s c).1 with
      | none => exact ih b f s
      | some a => cases b <;> exact ih _ _ s

/-- `World::spawn` leaves the storage untouched when driven by the real
`Register::register`. -/
theorem spawn_storage_eq (w : World) (s : Storage) (comps : List Address) :
    (World.spawn Register.register w s comps).2 = s := by
  unfold World.spawn
  rcases hr : spawnLoop Register.register comps none [] s with ⟨ob, f, s2⟩
  have h2 := spawnLoop_storage_eq comps none [] s
  rw [hr] at h2
  cases ob <;> simpa using h2

/-- On a storage whose Register key is absent, every loop iteration yields
bit 2, so the accumulated bitmask grows by 2 per component and every
component is kept. -/
theorem spawnLoop_fresh (s : Storage) (h : s.register = none) :
    ∀ (comps : List Address) (b : Nat) (f : List Address), b < U128 →
      spawnLoop Register.register comps (some b) f s =
        (some ((b + 2 * comps.length) % U128), f ++ comps, s) := by
  intro comps
  induction comps with
  | nil =>
      intro b f hb
      simp [spawnLoop, Nat.mod_eq_of_lt hb]
  | cons c rest ih =>
      intro b f hb
      simp only [spawnLoop, register_default s h c]
      rw [ih ((2 + b) % U128) (f ++ [c]) (Nat.mod_lt _ (by norm_num [U128]))]
      rw [Nat.mod_add_mod]
      have h3 : 2 + b + 2 * rest.length = b + 2 * (rest.length + 1) := by ring
      simp [List.append_assoc, h3]

/-! ### Claims -/

/-- C1: refuted on the code. The claim says registering the same address
twice yields a bit the first time and none the second; because the updated
`Register` is never written back to storage, the second call sees the same
empty registry and returns `some 2` again (state after genesis, address 0). -/
theorem C1_register_not_idempotent_bug :
    (Register.register (Contract.genesis Storage.init "alpha") 0).1 = some 2 ∧
    (Register.register
        ((Register.register (Contract.genesis Storage.init "alpha") 0).2) 0).1 =
      some 2 :=
  ⟨rfl, rfl⟩

/-- C2: refuted on the code. Spawning two fresh components after genesis
stores bitmask 4, not `2 | 4 = 6`: both `register` calls return bit 2
(the Register is never persisted) and the loop adds them, `2 + 2 = 4`. -/
theorem C2_spawn_bitmask_bug :
    Contract.spawn (Contract.genesis Storage.init "alpha") [0, 1] =
      .ok { genesis := some true,
            world := some { name := "alpha", counter := 1,
                            entities := [(1, (4, [0, 1]))], systems := [] },
            register := none } :=
  rfl

/-- C3: refuted on the code. Despawning any address after genesis hits the
panicking `expect` in `Register::unregister` — the Register key is never
stored — so despawn aborts instead of removing the address. -/
theorem C3_despawn_panics_bug :
    Contract.despawn (Contract.genesis Storage.init "alpha") 0 =
      .error "best to have a register before we unregister!" :=
  rfl

/-- C4: refuted on the code. With 127 bits handed out (`counter = 127`), the
next registration does not fail: the counter becomes 128 and `1 << 128`
wraps (masked shift) to `1`, silently re-issuing bit 0, which is supposed to
never be assigned. There is no capacity-exhaustion error path at all. -/
theorem C4_capacity_overflow_bug :
    (Register.registerLocal { counter := 127, addresses := [], map := [] } 0).1 =
      some (u128Shl 1 128) ∧
    u128Shl 1 128 = 1 ∧
    (Register.registerLocal { counter := 127, addresses := [], map := [] } 0).2.counter =
      128 :=
  ⟨rfl, rfl, rfl⟩

/-- C5: refuted on the code. `Contract::add_system` discards the updated
`World` without writing it back, so after `add_system(5, h1)` and
`add_system(5, h2)` the persisted storage is unchanged and its systems map
is still empty — `h2` is not registered under query 5. -/
theorem C5_add_system_not_persisted_bug :
    Contract.add_system (Contract.genesis Storage.init "alpha") 5 1 =
      .ok (Contract.genesis Storage.init "alpha") ∧
    Contract.add_system (Contract.genesis Storage.init "alpha") 5 2 =
      .ok (Contract.genesis Storage.init "alpha") ∧
    (Contract.genesis Storage.init "alpha").world =
      some { name := "alpha", counter := 0, entities := [], systems := [] } :=
  ⟨rfl, rfl, rfl⟩

/-- C7: confirmed. When the genesis flag is unset, `genesis(name)` stores
the flag and a `World` with the given name, counter 0 and empty
entity/system maps; when the flag is already set, any further `genesis`
call returns the storage unchanged. -/
theorem C7_genesis_gate (s : Storage) (nm nm2 : String) :
    (Contract.check_genesis s = false →
      Contract.genesis s nm =
        { s with genesis := some true,
                 world := some { name := nm, counter := 0,
                                 entities := [], systems := [] } }) ∧
    (Contract.check_genesis s = true → Contract.genesis s nm2 = s) := by
  constructor
  · intro h
    simp [Contract.genesis, h]
  · intro h
    simp [Contract.genesis, h]

/-- Witness for C7 at concrete inputs: genesis on a fresh deployment stores
the world named "alpha"; a second genesis call with a different name is a
no-op. -/
theorem C7_genesis_gate_witness :
    Contract.genesis Storage.init "alpha" =
      { genesis := some true,
        world := some { name := "alpha", counter := 0,
                        entities := [], systems := [] },
        register := none } ∧
    Contract.genesis
        { genesis := some true,
          world := some { name := "alpha", counter := 0,
                          entities := [], systems := [] },
          register := none } "beta" =
      { genesis := some true,
        world := some { name := "alpha", counter := 0,
                        entities := [], systems := [] },
        register := none } :=
  ⟨(C7_genesis_gate Storage.init "alpha" "beta").1 rfl,
   (C7_genesis_gate
      { genesis := some true,
        world := some { name := "alpha", counter := 0,
                        entities := [], systems := [] },
        register := none } "x" "beta").2 rfl⟩

/-- C6: confirmed. If no component of a spawn call yields a bit (the loop
accumulates no bitmask — every address already registered in the loaded
registry, or the list empty), `World::spawn` reports `created = false` with
the world unchanged, and `Contract::spawn` leaves the persisted storage
exactly as it was. -/
theorem C6_noop_spawn (s : Storage) (w : World) (comps : List Address)
    (hg : Contract.check_genesis s = true) (hw : s.world = some w)
    (h : (spawnLoop Register.register comps none [] s).1 = none) :
    World.spawn Register.register w s comps = ((false, w), s) ∧
    Contract.spawn s comps = .ok s := by
  have hs : World.spawn Register.register w s comps = ((false, w), s) := by
    unfold World.spawn
    rcases hr : spawnLoop Register.register comps none [] s with ⟨ob, f, s2⟩
    have h2 := spawnLoop_storage_eq comps none [] s
    rw [hr] at h2
    rw [hr] at h
    simp at h h2
    subst h h2
    rfl
  refine ⟨hs, ?_⟩
  unfold Contract.spawn
  simp [hg, hw, hs]

/-- Witness for C6 at concrete inputs: an empty spawn right after genesis
leaves the persisted storage unchanged. -/
theorem C6_noop_spawn_witness :
    Contract.spawn (Contract.genesis Storage.init "alpha") [] =
      .ok (Contract.genesis Storage.init "alpha") :=
  (C6_noop_spawn (Contract.genesis Storage.init "alpha")
      { name := "alpha", counter := 0, entities := [], systems := [] }
      [] rfl rfl rfl).2

/-- C8: confirmed. On any storage whose Register key is absent (as in every
reachable state — nothing ever stores a Register), `Register::register`
returns `some (1 <<< 1) = some 2` for every address and leaves the storage,
Register key included, untouched; consequently `World::spawn` on any
non-empty component list creates an entity whose stored component list is
the entire input (with bitmask the wrapping sum of one bit-2 per component). -/
theorem C8_register_never_persisted (s : Storage) (h : s.register = none)
    (a : Address) (w : World) (comps : List Address) (hne : comps ≠ []) :
    Register.register s a = (some 2, s) ∧
    World.spawn Register.register w s comps =
      ((true, { w with counter := (w.counter + 1) % U128,
                       entities := mapSet w.entities ((w.counter + 1) % U128)
                         ((2 * comps.length) % U128, comps) }), s) := by
  refine ⟨register_default s h a, ?_⟩
  cases comps with
  | nil => exact absurd rfl hne
  | cons c rest =>
      unfold World.spawn
      simp only [spawnLoop, register_default s h c]
      rw [show ([] : List Address) ++ [c] = [c] from rfl,
          spawnLoop_fresh s h rest 2 [c] (by norm_num [U128])]
      simp [List.length_cons, Nat.mul_add, Nat.add_comm]

/-- Witness for C8 at concrete inputs: on a fresh deployment, registering
address 0 yields bit 2 without touching storage, and spawning `[0, 1]`
stores the full input list with bitmask `2 + 2 = 4`. -/
theorem C8_register_never_persisted_witness :
    Register.register Storage.init 0 = (some 2, Storage.init) ∧
    World.spawn Register.register
        { name := "w", counter := 0, entities := [], systems := [] }
        Storage.init [0, 1] =
      ((true, { name := "w", counter := 1,
                entities := [(1, (4, [0, 1]))], systems := [] }), Storage.init) := by
  have h := C8_register_never_persisted Storage.init rfl 0
      { name := "w", counter := 0, entities := [], systems := [] }
      [0, 1] (by simp)
  exact ⟨h.1, h.2⟩

/-- C9: confirmed. No contract operation ever writes the Register key (each
conjunct shows the key is preserved, and `Storage.init` starts without it),
so after genesis every `despawn` call reaches the panicking `expect` in
`Register::unregister` and aborts; before genesis, `despawn` is a guarded
no-op. -/
theorem C9_despawn_always_fatal (s : Storage) (a : Address) (nm : String)
    (comps : List Address) (q : Query) (b : Address) (w : World) :
    Storage.init.register = none ∧
    (Contract.genesis s nm).register = s.register ∧
    (∀ s', Contract.spawn s comps = .ok s' → s'.register = s.register) ∧
    (∀ s', Contract.despawn s a = .ok s' → s'.register = s.register) ∧
    (∀ s', Contract.add_system s q b = .ok s' → s'.register = s.register) ∧
    (∀ s', Contract.remove_system s q = .ok s' → s'.register = s.register) ∧
    (Contract.check_genesis s = false → Contract.despawn s a = .ok s) ∧
    (s.register = none → Contract.check_genesis s = true → s.world = some w →
      Contract.despawn s a = .error "best to have a register before we unregister!") := by
  refine ⟨rfl, ?_, ?_, ?_, ?_, ?_, ?_, ?_⟩
  · cases hb : Contract.check_genesis s <;> simp [Contract.genesis, hb]
  · intro s' h
    unfold Contract.spawn at h
    cases hb : Contract.check_genesis s <;> simp [hb] at h
    · rw [← h]
    · cases hw : s.world with
      | none => simp [hw] at h
      | some w2 =>
          simp only [hw] at h
          rcases hsp : World.spawn Register.register w2 s comps with ⟨⟨created, world2⟩, s2⟩
          rw [hsp] at h
          have hs2 : s2 = s := by
            have h3 := spawn_storage_eq w2 s comps
            rw [hsp] at h3
            exact h3
          subst hs2
          cases created <;> simp at h <;> rw [← h]
  · intro s' h
    obtain ⟨g, ow, oreg⟩ := s
    unfold Contract.despawn at h
    cases hb : Contract.check_genesis ⟨g, ow, oreg⟩ <;> simp [hb] at h
    · rw [← h]
    · cases ow with
      | none => simp at h
      | some w2 =>
          cases oreg with
          | none => simp [World.despawn, Register.unregister] at h
          | some reg =>
              simp [World.despawn, Register.unregister] at h
              rw [← h]
  · intro s' h
    unfold Contract.add_system at h
    cases hb : Contract.check_genesis s <;> simp [hb] at h
    · rw [← h]
    · cases hw : s.world with
      | none => simp [hw] at h
      | some w2 =>
          simp [hw] at h
          rw [← h]
  · intro s' h
    unfold Contract.remove_system at h
    cases hb : Contract.check_genesis s <;> simp [hb] at h
    · rw [← h]
    · cases hw : s.world with
      | none => simp [hw] at h
      | some w2 =>
          simp [hw] at h
          rw [← h]
  · intro h
    simp [Contract.despawn, h]
  · intro hreg hg hw
    simp [Contract.despawn, hg, hw, World.despawn, Register.unregister, hreg]

/-- Witness for C9 at concrete inputs: before genesis despawn is a no-op;
right after genesis it aborts with the unregister panic message. -/
theorem C9_despawn_always_fatal_witness :
    Contract.despawn Storage.init 0 = .ok Storage.init ∧
    Contract.despawn (Contract.genesis Storage.init "alpha") 0 =
      .error "best to have a register before we unregister!" :=
  ⟨(C9_despawn_always_fatal Storage.init 0 "alpha" [] 0 0
      { name := "alpha", counter := 0, entities := [], systems := [] }).2.2.2.2.2.2.1 rfl,
   (C9_despawn_always_fatal (Contract.genesis Storage.init "alpha") 0 "alpha" [] 0 0
      { name := "alpha", counter := 0, entities := [], systems := [] }).2.2.2.2.2.2.2
     rfl rfl rfl⟩

/-- C10: confirmed. `Contract::add_system` and `Contract::remove_system`
compute an updated `World` and discard it; whenever they return
successfully, the persisted storage is exactly the input storage. -/
theorem C10_systems_not_persisted (s : Storage) (q : Query) (a : Address) :
    (∀ s', Contract.add_system s q a = .ok s' → s' = s) ∧
    (∀ s', Contract.remove_system s q = .ok s' → s' = s) := by
  constructor
  · intro s' h
    unfold Contract.add_system at h
    cases hb : Contract.check_genesis s <;> simp [hb] at h
    · exact h.symm
    · cases hw : s.world <;> simp [hw] at h
      exact h.symm
  · intro s' h
    unfold Contract.remove_system at h
    cases hb : Contract.check_genesis s <;> simp [hb] at h
    · exact h.symm
    · cases hw : s.world <;> simp [hw] at h
      exact h.symm

/-- Witness for C10 at a concrete input: adding a system right after
genesis returns the storage unchanged. -/
theorem C10_systems_not_persisted_witness :
    Contract.genesis Storage.init "alpha" = Contract.genesis Storage.init "alpha" :=
  (C10_systems_not_persisted (Contract.genesis Storage.init "alpha") 5 1).1
    (Contract.genesis Storage.init "alpha") rfl
